import Mathlib

/-!
# Verification of the http-splitter configuration layer

Shallow embedding of the configuration model of the `http-splitter`
HTTP-splitting proxy (files `src/config.rs`, `src/config/listener.rs`,
`src/config/response.rs`), together with theorems checking the design
document's statements about it.

Conventions:
* Rust `Result<T, E>` becomes `Except E T`; `Option<T>` becomes `Option T`.
* Rust `String`/`&str` become Lean `String`; machine integers (`u16`) become
  `Nat` (the values involved are three-digit status codes, far below 2^16,
  so no wrap-around can occur).
* Stateful pieces (the `OnceCell` configuration singleton) become explicit
  state passing.
* Parts of the repository that are referenced from the given files but whose
  own sources are not available (`src/config/target.rs`,
  `src/config/headers.rs`, `src/errors.rs`, `ResponseConfig::validate`) are
  modelled from the design document; each such definition carries a doc
  comment saying so.
-/

namespace HttpSplitter

/-- Error type of the application.  Modelled from the spec: `src/errors.rs`
is not among the given sources; the constructors and their payloads are taken
from the construction sites in `src/config.rs` (`ValidateConfig`),
`src/config/listener.rs` (`InvalidConfig`) and `src/config/response.rs`
(`ParseConfigFile`).  The `figment::Error` payload of `ParseConfigFile` is
modelled by its message string. -/
inductive HttpDragonflyError where
  | InvalidConfig (cause : String)
  | ValidateConfig (cause : String)
  | ParseConfigFile (cause : String)
deriving DecidableEq, Repr

/-- The Unicode `White_Space` property, which is what both the `regex`
crate's `\s` class and Rust's `str::trim` (via `char::is_whitespace`) use.
The property holds for exactly the code points listed below (Unicode 15). -/
def isUnicodeWhitespace (c : Char) : Bool :=
  (decide (9 ≤ c.toNat) && decide (c.toNat ≤ 13)) ||
  decide (c.toNat = 32) ||
  decide (c.toNat = 0x85) ||
  decide (c.toNat = 0xA0) ||
  decide (c.toNat = 0x1680) ||
  (decide (0x2000 ≤ c.toNat) && decide (c.toNat ≤ 0x200A)) ||
  decide (c.toNat = 0x2028) ||
  decide (c.toNat = 0x2029) ||
  decide (c.toNat = 0x202F) ||
  decide (c.toNat = 0x205F) ||
  decide (c.toNat = 0x3000)

/-- Rust's `str::trim` on a character list: removes leading and trailing
`White_Space` characters. -/
def trimWhitespace (cs : List Char) : List Char :=
  ((cs.dropWhile isUnicodeWhitespace).reverse.dropWhile isUnicodeWhitespace).reverse

/-- `ResponseStatus` from `src/config/response.rs`: a numeric status code
with an optional status message.  `code` is a Rust `u16`, embedded as `Nat`
(parsing accepts exactly three decimal digits, so the value is at most 999
and no overflow is possible). -/
structure ResponseStatus where
  code : Nat
  msg : Option String
deriving DecidableEq, Repr

/-- Numeric value of an ASCII digit. -/
def digitVal (c : Char) : Nat := c.toNat - 48

/-- Core of `ResponseStatus::from_str` (`src/config/response.rs`),
operating on the character list of the input.

The Rust code matches the whole input against the anchored regex
`^(?P<code>\d{3})\s*(?P<msg>.*)$` and, on a match, parses `code` with
`u16::from_str` and keeps `msg` trimmed (`None` when the raw capture is
empty).  That regex is embedded as follows, by the `regex` crate's
semantics for this concrete pattern:
* `^ … $` anchor the match to the whole input;
* `\s*` greedily consumes the maximal run of `White_Space` characters after
  the three digits (shortening it on backtracking only ever re-adds
  whitespace to the tail, so the match succeeds iff the maximal-run split
  does);
* `.` does not match a line feed, so `(?P<msg>.*)$` succeeds iff the
  remainder after that maximal whitespace run contains no `'\n'`;
* `\d` is the Unicode decimal-digit class; for a digit outside ASCII the
  regex matches but the subsequent `u16` parse fails, producing the very
  same `ParseConfigFile` error that a failed regex match produces, so
  checking for ASCII digits up front is extensionally the same function.
-/
def responseStatusFromChars (cs : List Char) : Except HttpDragonflyError ResponseStatus :=
  match cs with
  | d1 :: d2 :: d3 :: rest =>
    if d1.isDigit && d2.isDigit && d3.isDigit then
      -- capture `msg`: everything after the maximal whitespace run
      let msgCap := rest.dropWhile isUnicodeWhitespace
      if msgCap.contains '\n' then
        .error (.ParseConfigFile "invalid status string")
      else
        let code := 100 * digitVal d1 + 10 * digitVal d2 + digitVal d3
        let msg : Option String :=
          if msgCap.isEmpty then none else some (String.mk (trimWhitespace msgCap))
        .ok { code := code, msg := msg }
    else
      .error (.ParseConfigFile "invalid status string")
  | _ => .error (.ParseConfigFile "invalid status string")

/-- `ResponseStatus::from_str` from `src/config/response.rs`. -/
def ResponseStatus.fromStr (v : String) : Except HttpDragonflyError ResponseStatus :=
  responseStatusFromChars v.data

/-- `impl From<&str> for ResponseStatus` (`src/config/response.rs`): parses
and unwraps.  The Rust code panics when parsing fails; that path is
unreachable for the literals the program applies it to (proved below for
`"504 Gateway Timeout"`), and is modelled by a dummy value. -/
def ResponseStatus.ofStr (v : String) : ResponseStatus :=
  match ResponseStatus.fromStr v with
  | .ok s => s
  | .error _ => { code := 0, msg := none }

/-- The `ResponseStrategy` enum exactly as declared in
`src/config/response.rs` (lines 40–52): eight variants, with
`FailedThenOverride` carrying the `#[default]` attribute.  Note that this
declaration does *not* contain a `ConditionalRouting` variant, although
`src/config/listener.rs` (line 213) pattern-matches on
`ResponseStrategy::ConditionalRouting`; see `ResponseStrategy` below. -/
inductive ResponseStrategyDeclared where
  | AlwaysOverride
  | AlwaysTargetId
  | OkThenFailed
  | OkThenTargetId
  | OkThenOverride
  | FailedThenOk
  | FailedThenTargetId
  | FailedThenOverride
deriving DecidableEq, Repr, Fintype

/-- The response strategy as consumed by the rest of the program.  Modelled
from the spec: `src/config/listener.rs` matches on a ninth variant
`ResponseStrategy::ConditionalRouting` that the enum declaration in
`src/config/response.rs` lacks (the design document §4.3 lists
`ConditionalRouting` as the ninth strategy and §9 flags the discrepancy).
For the listener validation code to be embeddable at all, this type carries
the nine variants; the declaration as literally written in
`src/config/response.rs` is kept separately as `ResponseStrategyDeclared`. -/
inductive ResponseStrategy where
  | AlwaysOverride
  | AlwaysTargetId
  | OkThenFailed
  | OkThenTargetId
  | OkThenOverride
  | FailedThenOk
  | FailedThenTargetId
  | FailedThenOverride
  | ConditionalRouting
deriving DecidableEq, Repr, Fintype

/-- The `#[default]` variant of `ResponseStrategy`
(`src/config/response.rs`, line 50–51). -/
def ResponseStrategy.default : ResponseStrategy := .FailedThenOverride

/-- Display form of a strategy, used inside validation error messages.
Modelled from the spec: the `Display` impl is not among the given sources;
the serde attribute `rename_all = "snake_case"` fixes the external spelling
of each variant. -/
def ResponseStrategy.display : ResponseStrategy → String
  | .AlwaysOverride => "always_override"
  | .AlwaysTargetId => "always_target_id"
  | .OkThenFailed => "ok_then_failed"
  | .OkThenTargetId => "ok_then_target_id"
  | .OkThenOverride => "ok_then_override"
  | .FailedThenOk => "failed_then_ok"
  | .FailedThenTargetId => "failed_then_target_id"
  | .FailedThenOverride => "failed_then_override"
  | .ConditionalRouting => "conditional_routing"

/-- One header transformation.  Modelled from the spec:
`src/config/headers.rs` is not among the given sources; §4.1 lists the four
operations `set`, `add`, `remove`, `rename`.  The configuration claims never
inspect transforms, only carry them. -/
inductive HeaderTransform where
  | set (name value : String)
  | add (name value : String)
  | remove (name : String)
  | rename (fromName toName : String)
deriving DecidableEq, Repr

/-- A target's condition.  Modelled from the spec:
`src/config/target.rs` is not among the given sources; §3 says a condition
is `either Default — always eligible — or a boolean expression over the
request`.  The expression is kept abstract as its source text (it is already
parsed at deserialization time; listener validation only discriminates
`Default` from the rest). -/
inductive TargetConditionConfig where
  | Default
  | Filter (expr : String)
deriving DecidableEq, Repr

/-- One configured target.  Modelled from the spec:
`src/config/target.rs` is not among the given sources; §3 lists a
`TargetSpec` as id, upstream address, optional condition and per-target
header transforms.  `TargetConfig.id` (the projection) embeds the accessor
`TargetConfig::id` used by `src/config/listener.rs`. -/
structure TargetConfig where
  id : String
  url : String
  condition : Option TargetConditionConfig
  headers : Option (List HeaderTransform)
deriving DecidableEq, Repr

/-- Per-target validation.  Modelled from the spec: `src/config/target.rs`
is not among the given sources.  Condition expressions are parsed at
deserialization time (the test in `src/config.rs` shows a malformed
condition failing during deserialization, before `validate` runs), and the
design document assigns no further structural check to a single target, so
this validation accepts. -/
def TargetConfig.validate (_t : TargetConfig) : Except HttpDragonflyError Unit :=
  .ok ()

/-- The `Override` response section of `src/config/response.rs`. -/
structure OverrideConfig where
  status : Option ResponseStatus
  body : Option String
  headers : Option (List HeaderTransform)
deriving DecidableEq, Repr

/-- `ResponseConfig` from `src/config/response.rs`.

`target_selector` is embedded as `Option String`: the declaration in
`src/config/response.rs` gives the field the enum type
`ResponseTargetSelector` (`Fastest | Slowest | Random`), but
`src/config/listener.rs` (lines 244–255) consumes it as an optional string
compared against target ids (`if let Some(target_id) = …;
target_ids.contains(target_id)`), and the design document §9 describes the
field as a stringly-typed dual-purpose selector.  The `Option String` form
is the one the validation code of the listener — the code under
verification here — requires. -/
structure ResponseConfig where
  strategy : ResponseStrategy
  target_selector : Option String
  failure_status_regex : String
  failure_on_timeout : Bool
  timeout_status : ResponseStatus
  cancel_unneeded_targets : Bool
  override_config : Option OverrideConfig
deriving DecidableEq, Repr

/-- `impl Default for ResponseConfig` (`src/config/response.rs`, lines
26–38).  `strategy: Default::default()` resolves to the `#[default]` variant
`FailedThenOverride`; `target_selector` defaults to unspecified (in the
`Option String` embedding described at `ResponseConfig`). -/
def ResponseConfig.default : ResponseConfig where
  strategy := ResponseStrategy.default
  target_selector := none
  failure_status_regex := "4\\d{2}|5\\d{2}"
  failure_on_timeout := true
  timeout_status := ResponseStatus.ofStr "504 Gateway Timeout"
  cancel_unneeded_targets := false
  override_config := none

/-- Response-level validation.  Modelled from the spec:
`src/config/listener.rs` (line 209) calls `self.response().validate()`, but
`src/config/response.rs` as given contains no `validate`; the design
document assigns the response-related structural checks (strategy/selector
consistency, conditional-routing shape) to the listener-level validation
embedded below and nothing to the response configuration itself, so this
validation accepts. -/
def ResponseConfig.validate (_r : ResponseConfig) : Except HttpDragonflyError Unit :=
  .ok ()

/-- Unanchored search for the default failure-status pattern
`4\d{2}|5\d{2}`: succeeds iff some position of the list starts `'4'` or
`'5'` followed by two decimal digits.  This embeds `regex::Regex::is_match`
for this one concrete pattern (the engine applies `failure_status_regex` to
the decimal rendering of a numeric status code, an ASCII-digit string). -/
def searchDefaultFailureRegex : List Char → Bool
  | [] => false
  | c :: rest =>
    (match rest with
     | d1 :: d2 :: _ => (c = '4' || c = '5') && d1.isDigit && d2.isDigit
     | _ => false) ||
    searchDefaultFailureRegex rest

/-- Whether a status-code string matches the default failure-status regex
`4\d{2}|5\d{2}`. -/
def matchesDefaultFailureRegex (s : String) : Bool :=
  searchDefaultFailureRegex s.data

/-- The bind address of a listener (`ListenOn` in
`src/config/listener.rs`): an IPv4 address and a port.  The four octets and
the port are embedded as `Nat` (they are a Rust `Ipv4Addr` and `u16`). -/
structure ListenOn where
  ip : Nat × Nat × Nat × Nat
  port : Nat
deriving DecidableEq, Repr

/-- `impl Default for ListenOn`: `0.0.0.0:8080`
(`DEFAULT_LISTENER_PORT = 8080`). -/
def ListenOn.default : ListenOn where
  ip := (0, 0, 0, 0)
  port := 8080

/-- `impl Display for ListenOn`: `"{ip}:{port}"`. -/
def ListenOn.display (l : ListenOn) : String :=
  toString l.ip.1 ++ "." ++ toString l.ip.2.1 ++ "." ++ toString l.ip.2.2.1 ++ "."
    ++ toString l.ip.2.2.2 ++ ":" ++ toString l.port

/-- `ListenerConfig` from `src/config/listener.rs`.  The optional `name`
field is called `name?` here because `ListenerConfig.name` is the accessor
method (which falls back to a generated name).  `timeout` is a `Duration`,
embedded as a number of nanoseconds; no claim inspects it. -/
structure ListenerConfig where
  name? : Option String
  listen_on : ListenOn
  timeout : Nat
  headers : Option (List HeaderTransform)
  methods : Option (List String)
  targets : List TargetConfig
  response : ResponseConfig
deriving DecidableEq, Repr

/-- `ListenerConfig::name` (`src/config/listener.rs`, lines 49–55): the
configured name, or `LISTENER-{listen_on}` when none is configured. -/
def ListenerConfig.name (cfg : ListenerConfig) : String :=
  match cfg.name? with
  | some n => n
  | none => "LISTENER-" ++ cfg.listen_on.display

/-- Rust's `char`-level full lowercase mapping (the one
`str::to_lowercase` applies), exactly on the code points below U+0100.  On
that range the Unicode full lowercase mapping is one-to-one and
character-wise: it adds 32 on the three uppercase ranges `A`–`Z` (U+0041 –
U+005A), `À`–`Ö` (U+00C0 – U+00D6) and `Ø`–`Þ` (U+00D8 – U+00DE), and it
fixes everything else there (`×` U+00D7 is not a letter; `ß`, `µ`, `ÿ` and
all lowercase letters already are their own lowercase).  Code points at
U+0100 and above are left unchanged — a modelling restriction (the full
Unicode table is out of scope); note that no Unicode lowercase mapping ever
produces an upper-case ASCII letter, so for membership questions against
list entries containing upper-case ASCII (such as `"GET"`) the identity on
that remainder is conservative: both the mapping and the identity yield a
string that cannot equal such an entry. -/
def charLowercase (c : Char) : Char :=
  if (65 ≤ c.toNat ∧ c.toNat ≤ 90) ∨
      (0xC0 ≤ c.toNat ∧ c.toNat ≤ 0xD6) ∨
      (0xD8 ≤ c.toNat ∧ c.toNat ≤ 0xDE) then
    Char.ofNat (c.toNat + 32)
  else c

/-- Rust's `str::to_lowercase`, character-wise via `charLowercase`: exact
for strings of code points below U+0100 (ASCII and Latin-1), identity on
higher code points (see `charLowercase`). -/
def strToLower (s : String) : String :=
  String.mk (s.data.map charLowercase)

/-- The *claim's* notion of lowercasing, stated for comparison with the
source's: the "ASCII-lowercased form" of a string, mapping only `'A'..'Z'`
to `'a'..'z'` (Lean's `Char.toLower`) and leaving every non-ASCII character
unchanged.  This is what C8 asserts the method lookup uses; the program
uses the full Unicode lowercasing embedded as `strToLower`, and the two
disagree on non-ASCII upper-case letters such as `'É'`. -/
def asciiLowercase (s : String) : String :=
  String.mk (s.data.map Char.toLower)

/-- `ListenerConfig::is_method_allowed` (`src/config/listener.rs`, lines
62–70): with no configured method list every method is allowed; with a
configured list, the inbound method is lowercased and looked up verbatim in
the list. -/
def ListenerConfig.is_method_allowed (cfg : ListenerConfig) (method : String) : Bool :=
  match cfg.methods with
  | some methods => methods.contains (strToLower method)
  | none => true

/-- The `for target in self.targets() { target.validate()? }` loop of
`ListenerConfig::validate` (`src/config/listener.rs`, lines 203–206). -/
def validateTargets : List TargetConfig → Except HttpDragonflyError Unit
  | [] => .ok ()
  | t :: rest =>
    match t.validate with
    | .error e => .error e
    | .ok () => validateTargets rest

/-- Whether a target's condition is the `Default` condition.  Embeds
`matches!(t.condition().as_ref().unwrap(), TargetConditionConfig::Default)`
from `src/config/listener.rs` (lines 224–229); the Rust `unwrap` cannot
panic where the expression is evaluated, because the branch is only reached
after the no-missing-condition check has passed. -/
def conditionIsDefault (t : TargetConfig) : Bool :=
  match t.condition with
  | some .Default => true
  | _ => false

/-- The `// Validate strategy requirements` section of
`ListenerConfig::validate` (`src/config/listener.rs`, lines 211–258):
`ConditionalRouting` requires every target to carry a condition and at most
one `Default` condition; the three `*TargetId` strategies require
`target_selector` to be specified and to name a configured target id; the
remaining strategies need nothing. -/
def ListenerConfig.strategyChecks (cfg : ListenerConfig) : Except HttpDragonflyError Unit :=
  match cfg.response.strategy with
  | .ConditionalRouting =>
    if cfg.targets.any (fun t => t.condition.isNone) then
      .error (.InvalidConfig
        ("all targets of the listener `" ++ cfg.name
          ++ "` must have condition defined because strategy is `"
          ++ cfg.response.strategy.display ++ "`"))
    else if (cfg.targets.filter conditionIsDefault).length > 1 then
      .error (.InvalidConfig
        ("more than one default target is defined of the listener `"
          ++ cfg.name ++ "` but only one is allowed"))
    else
      .ok ()
  | .AlwaysTargetId | .FailedThenTargetId | .OkThenTargetId =>
    match cfg.response.target_selector with
    | some target_id =>
      if !(cfg.targets.map TargetConfig.id).contains target_id then
        .error (.InvalidConfig
          ("`target_selector` points to unknown target_id `" ++ target_id
            ++ "` in the listener `" ++ cfg.name ++ "`"))
      else
        .ok ()
    | none =>
      .error (.InvalidConfig
        ("`target_selector` should be specified for strategy `"
          ++ cfg.response.strategy.display ++ "` in the listener `"
          ++ cfg.name ++ "`"))
  | _ => .ok ()

/-- `ListenerConfig::validate` (`impl ConfigValidator for ListenerConfig`,
`src/config/listener.rs`, lines 190–262), embedded section for section:

1. the target-id uniqueness check computes
   `self.targets().iter().map(TargetConfig::id).count()` — note that this is
   the plain count of the mapped iterator, `(targets.map id).length`, with
   no deduplication — and errors when it differs from
   `self.targets().len()`;
2. each target is validated in order, propagating the first error;
3. the response configuration is validated;
4. the strategy-specific checks of `ListenerConfig.strategyChecks` run. -/
def ListenerConfig.validate (cfg : ListenerConfig) : Except HttpDragonflyError Unit :=
  if (cfg.targets.map TargetConfig.id).length ≠ cfg.targets.length then
    .error (.InvalidConfig
      ("all target IDs of the listener `" ++ cfg.name ++ "` should be unique"))
  else
    match validateTargets cfg.targets with
    | .error e => .error e
    | .ok () =>
      match cfg.response.validate with
      | .error e => .error e
      | .ok () => cfg.strategyChecks

/-- `AppConfig` from `src/config.rs`: the root of the configuration, a list
of listeners. -/
structure AppConfig where
  listeners : List ListenerConfig
deriving DecidableEq, Repr

/-- The `for listener in self.listeners() { listener.validate()? }` loop of
`AppConfig::validate` (`src/config.rs`, lines 69–71). -/
def validateListeners : List ListenerConfig → Except HttpDragonflyError Unit
  | [] => .ok ()
  | l :: rest =>
    match l.validate with
    | .error e => .error e
    | .ok () => validateListeners rest

/-- `AppConfig::validate` (`impl ConfigValidator for AppConfig`,
`src/config.rs`, lines 61–75): at least one listener must be configured,
and every listener must validate. -/
def AppConfig.validate (cfg : AppConfig) : Except HttpDragonflyError Unit :=
  if cfg.listeners.isEmpty then
    .error (.ValidateConfig "at least one listener must be configured")
  else
    validateListeners cfg.listeners

/-- `AppConfig::new` (`src/config.rs`, lines 30–34):

```
let config = AppConfig::from_file(filename, ctx)?;
Ok(APP_CONFIG.get_or_init(|| config))
```

`AppConfig::from_file` performs file I/O, environment-variable substitution,
YAML deserialization and validation; it is abstracted as the function
argument `load` (its `Context` argument is folded into `load`).  The
process-wide `static APP_CONFIG: OnceCell<AppConfig>` is embedded as
explicit state `cell : Option AppConfig`; `get_or_init` returns the stored
value when the cell is full — discarding the freshly loaded `config` — and
otherwise stores `config` and returns it.  The function returns the
`Result` together with the cell's new state. -/
def AppConfig.new (load : String → Except HttpDragonflyError AppConfig)
    (filename : String) (cell : Option AppConfig) :
    Except HttpDragonflyError AppConfig × Option AppConfig :=
  match load filename with
  | .error e => (.error e, cell)
  | .ok config =>
    match cell with
    | some stored => (.ok stored, some stored)
    | none => (.ok config, some config)

/-! ## Concrete sample configurations, used as witnesses and failing inputs -/

/-- A minimal response configuration with a given strategy and selector. -/
def sampleResponse (strategy : ResponseStrategy) (sel : Option String) : ResponseConfig :=
  { ResponseConfig.default with strategy := strategy, target_selector := sel }

/-- A minimal target with a given id and condition. -/
def sampleTarget (id : String) (condition : Option TargetConditionConfig) : TargetConfig :=
  { id := id, url := "http://localhost:8000", condition := condition, headers := none }

/-- A minimal listener with given methods, targets and response section. -/
def sampleListener (methods : Option (List String)) (targets : List TargetConfig)
    (response : ResponseConfig) : ListenerConfig :=
  { name? := some "test", listen_on := ListenOn.default, timeout := 10000000000,
    headers := none, methods := methods, targets := targets, response := response }

/-- A listener whose two targets share the id `dup` — the input on which the
load-time uniqueness check of the design document should fire. -/
def dupIdListener : ListenerConfig :=
  sampleListener none [sampleTarget "dup" none, sampleTarget "dup" none]
    ResponseConfig.default

/-- A well-formed conditional-routing listener: every target carries a
condition, exactly one of which is `Default`. -/
def goodConditionalListener : ListenerConfig :=
  sampleListener none
    [sampleTarget "t1" (some (.Filter ".request.uri contains api")),
     sampleTarget "t2" (some .Default)]
    (sampleResponse .ConditionalRouting none)

/-- A conditional-routing listener with a target that has no condition. -/
def noConditionListener : ListenerConfig :=
  sampleListener none
    [sampleTarget "t1" none, sampleTarget "t2" (some .Default)]
    (sampleResponse .ConditionalRouting none)

/-- A conditional-routing listener with two `Default` targets. -/
def twoDefaultListener : ListenerConfig :=
  sampleListener none
    [sampleTarget "t1" (some .Default), sampleTarget "t2" (some .Default)]
    (sampleResponse .ConditionalRouting none)

/-- An `AlwaysTargetId` listener whose selector names a configured target. -/
def goodTargetIdListener : ListenerConfig :=
  sampleListener none [sampleTarget "t1" none, sampleTarget "t2" none]
    (sampleResponse .AlwaysTargetId (some "t1"))

/-- A load oracle for exercising `AppConfig.new`: yields a fixed
configuration for every filename except `bad.yaml`, which fails. -/
def sampleLoad (filename : String) : Except HttpDragonflyError AppConfig :=
  if filename = "bad.yaml" then
    .error (.ValidateConfig "at least one listener must be configured")
  else if filename = "other.yaml" then
    .ok { listeners := [goodTargetIdListener] }
  else
    .ok { listeners := [dupIdListener] }

deriving instance DecidableEq for Except

/-! ## Helper lemmas -/

theorem charToNat_ofNat_of_valid (n : Nat) (h : n.isValidChar) :
    (Char.ofNat n).toNat = n := by
  simp [Char.ofNat, dif_pos h, Char.ofNatAux, Char.toNat, UInt32.toNat]

theorem charLowercase_toNat (c : Char) :
    (charLowercase c).toNat =
      if (65 ≤ c.toNat ∧ c.toNat ≤ 90) ∨ (0xC0 ≤ c.toNat ∧ c.toNat ≤ 0xD6) ∨
          (0xD8 ≤ c.toNat ∧ c.toNat ≤ 0xDE) then c.toNat + 32 else c.toNat := by
  unfold charLowercase
  by_cases h : (65 ≤ c.toNat ∧ c.toNat ≤ 90) ∨ (0xC0 ≤ c.toNat ∧ c.toNat ≤ 0xD6) ∨
      (0xD8 ≤ c.toNat ∧ c.toNat ≤ 0xDE)
  · have hvalid : (c.toNat + 32).isValidChar := Or.inl (by omega)
    rw [if_pos h, if_pos h, charToNat_ofNat_of_valid _ hvalid]
  · rw [if_neg h, if_neg h]

/-- Lowercasing never produces an upper-case `'G'`: characters in the three
shifted uppercase ranges land in the corresponding lowercase ranges, and
any character equal to `'G'` would be in `'A'..'Z'` and hence shifted. -/
theorem charLowercase_ne_G (c : Char) : charLowercase c ≠ 'G' := by
  intro h
  have h71 : (charLowercase c).toNat = 71 := by rw [h]; decide
  rw [charLowercase_toNat] at h71
  split at h71 <;> omega

/-- No string lowercases to `"GET"`, since its first character would have to
lowercase to `'G'`. -/
theorem strToLower_ne_GET (m : String) : strToLower m ≠ "GET" := by
  intro h
  have hdata : m.data.map charLowercase = ['G', 'E', 'T'] := congrArg String.data h
  have hmem : 'G' ∈ m.data.map charLowercase := by rw [hdata]; simp
  obtain ⟨c, _, hc⟩ := List.mem_map.mp hmem
  exact charLowercase_ne_G c hc

/-- On ASCII characters the source's lowercasing and the claim's ASCII
lowercasing agree: below 128 the two Latin-1 uppercase ranges are out of
reach and both mappings shift exactly `'A'..'Z'`. -/
theorem charLowercase_eq_toLower_of_ascii (c : Char) (h : c.toNat < 128) :
    charLowercase c = Char.toLower c := by
  unfold charLowercase Char.toLower
  by_cases h1 : 65 ≤ c.toNat ∧ c.toNat ≤ 90
  · rw [if_pos (Or.inl h1)]
    have h2 : c.toNat ≥ 65 ∧ c.toNat ≤ 90 := ⟨h1.1, h1.2⟩
    rw [if_pos h2]
  · rw [if_neg (by omega)]
    have h2 : ¬(c.toNat ≥ 65 ∧ c.toNat ≤ 90) := h1
    rw [if_neg h2]

/-- On ASCII strings the source's lowercasing is exactly the claim's
ASCII lowercasing. -/
theorem strToLower_eq_asciiLowercase_of_ascii (m : String)
    (h : ∀ c ∈ m.data, c.toNat < 128) :
    strToLower m = asciiLowercase m := by
  unfold strToLower asciiLowercase
  congr 1
  exact List.map_congr_left (fun c hc => charLowercase_eq_toLower_of_ascii c (h c hc))

/-- Every target passes the (spec-modelled) per-target validation. -/
theorem validateTargets_ok (l : List TargetConfig) : validateTargets l = .ok () := by
  induction l with
  | nil => rfl
  | cons t rest ih => simpa [validateTargets, TargetConfig.validate] using ih

/-- The first three sections of `ListenerConfig::validate` always pass: the
uniqueness check compares the length of a mapped list with the length of the
list itself (which are always equal, so the check cannot fire), and the
per-target and response validations are the accepting spec-modelled ones.
`validate` therefore always reduces to the strategy-requirement checks. -/
theorem listenerValidate_eq_strategyChecks (cfg : ListenerConfig) :
    cfg.validate = cfg.strategyChecks := by
  simp [ListenerConfig.validate, validateTargets_ok, ResponseConfig.validate]

theorem conditionIsDefault_eq (t : TargetConfig) :
    conditionIsDefault t = decide (t.condition = some TargetConditionConfig.Default) := by
  match h : t.condition with
  | none => simp [conditionIsDefault, h]
  | some .Default => simp [conditionIsDefault, h]
  | some (.Filter e) => simp [conditionIsDefault, h]

theorem filter_conditionIsDefault (l : List TargetConfig) :
    l.filter conditionIsDefault
      = l.filter (fun t => decide (t.condition = some TargetConditionConfig.Default)) := by
  apply List.filter_congr
  intro t _
  exact conditionIsDefault_eq t

theorem dropWhile_idem (p : α → Bool) (l : List α) :
    (l.dropWhile p).dropWhile p = l.dropWhile p := by
  induction l with
  | nil => rfl
  | cons a l ih =>
    by_cases hp : p a
    · simp [List.dropWhile_cons, hp, ih]
    · simp [List.dropWhile_cons, hp]

/-- Trimming ignores an already-removed run of leading whitespace: the
trimmed form of the `msg` capture (which starts after the maximal whitespace
run) equals the trimmed form of everything after the status digits. -/
theorem trimWhitespace_dropWhile (l : List Char) :
    trimWhitespace (l.dropWhile isUnicodeWhitespace) = trimWhitespace l := by
  unfold trimWhitespace
  rw [dropWhile_idem]

/-! ## Claim theorems -/

/-- C1: the claim says `ListenerConfig::validate` rejects a listener whose
target list contains two targets with the same id.  It does not: the
"uniqueness" check compares `targets.iter().map(TargetConfig::id).count()` —
the plain element count of the mapped iterator, with no deduplication —
against `targets.len()`, and these are always equal.  Witnessed here on a
concrete listener with two targets both named `dup`, whose full validation
succeeds. -/
theorem c1_duplicate_target_ids_validate_ok :
    dupIdListener.targets.map TargetConfig.id = ["dup", "dup"] ∧
    dupIdListener.validate = .ok () := by
  constructor
  · rfl
  · rfl

/-- C2: the `ResponseStrategy` enum as declared in `src/config/response.rs`
(lines 40–52) has exactly eight variants, not the nine the claim states:
`ConditionalRouting` is absent from the declaration, even though
`src/config/listener.rs` (line 213) pattern-matches on
`ResponseStrategy::ConditionalRouting` and the design document lists it as
the ninth strategy.  The type actually consumed by the listener-validation
code (embedded as `ResponseStrategy`, with the missing variant restored)
has nine. -/
theorem c2_declared_strategy_enum_has_eight_variants :
    Fintype.card ResponseStrategyDeclared = 8 ∧ Fintype.card ResponseStrategy = 9 := by
  constructor
  · rfl
  · rfl

/-- C5: a response configuration that does not specify a strategy receives
`Default::default()`, which is the `#[default]`-marked variant
`FailedThenOverride`. -/
theorem c5_default_strategy_is_failed_then_override :
    ResponseConfig.default.strategy = ResponseStrategy.default ∧
    ResponseStrategy.default = ResponseStrategy.FailedThenOverride :=
  ⟨rfl, rfl⟩

/-- C6: the default `failure_status_regex` is the string `4\d{2}|5\d{2}`,
and under that pattern the status code `503` matches (classified as failed)
while `204` does not (classified as ok). -/
theorem c6_default_failure_regex_classification :
    ResponseConfig.default.failure_status_regex = "4\\d{2}|5\\d{2}" ∧
    matchesDefaultFailureRegex "503" = true ∧
    matchesDefaultFailureRegex "204" = false := by
  refine ⟨rfl, by decide, by decide⟩

/-- C7: with no configured method list (`methods: None`),
`ListenerConfig::is_method_allowed` returns `true` for every method
string. -/
theorem c7_no_method_list_allows_all (cfg : ListenerConfig) (m : String)
    (h : cfg.methods = none) : cfg.is_method_allowed m = true := by
  simp [ListenerConfig.is_method_allowed, h]

/-- Witness for C7 at a concrete listener and method. -/
theorem c7_no_method_list_allows_all_witness :
    (sampleListener none [] ResponseConfig.default).is_method_allowed "TRACE" = true :=
  c7_no_method_list_allows_all (sampleListener none [] ResponseConfig.default) "TRACE" rfl

/-- C8 (counterexample to the claim as stated): with configured list
`["é"]`, the inbound method `"É"` *is* allowed — `str::to_lowercase`
lowercases `'É'` (U+00C9) to `'é'` (U+00E9) — yet the ASCII-lowercased form
of `"É"` is `"É"` itself, which the list does not contain.  The lookup is
by full Unicode lowercasing, not by ASCII lowercasing, so the claimed iff
fails at this input. -/
theorem c8_unicode_method_counterexample :
    (sampleListener (some ["é"]) [] ResponseConfig.default).is_method_allowed "É" = true ∧
    asciiLowercase "É" ∉ (["é"] : List String) := by
  refine ⟨by decide, by decide⟩

/-- C8 (amended): with a configured method list, `is_method_allowed(m)`
holds iff the list contains, verbatim, the lowercased form of `m` under
Rust's `str::to_lowercase` — stated for methods of code points below
U+0100, the range on which the embedding of that lowercasing is exact; on
ASCII methods this lowercased form coincides with the ASCII-lowercased form
the claim names.  A configured entry spelled `"GET"` (upper case) is
matched by no inbound method whatsoever, since no string lowercases to
`"GET"` (lowercasing never produces an upper-case ASCII letter). -/
theorem c8_method_list_matching :
    (∀ (cfg : ListenerConfig) (l : List String) (m : String), cfg.methods = some l →
      (∀ c ∈ m.data, c.toNat < 0x100) →
      (cfg.is_method_allowed m = true ↔ strToLower m ∈ l)) ∧
    (∀ m : String, (∀ c ∈ m.data, c.toNat < 128) → strToLower m = asciiLowercase m) ∧
    (∀ (cfg : ListenerConfig) (m : String), cfg.methods = some ["GET"] →
      cfg.is_method_allowed m = false) := by
  refine ⟨?_, strToLower_eq_asciiLowercase_of_ascii, ?_⟩
  · intro cfg l m h hm
    simp [ListenerConfig.is_method_allowed, h, List.contains_iff_exists_mem_beq]
  · intro cfg m h
    simp [ListenerConfig.is_method_allowed, h]
    exact strToLower_ne_GET m

/-- Witness for C8: `GeT` is accepted against the configured list `["get"]`
(its lowercase form being its ASCII-lowercase form), the Latin-1 method
`"É"` is accepted against `["é"]`, and `GET` itself is rejected against the
configured list `["GET"]`. -/
theorem c8_method_list_matching_witness :
    (sampleListener (some ["get"]) [] ResponseConfig.default).is_method_allowed "GeT" = true ∧
    strToLower "GeT" = asciiLowercase "GeT" ∧
    (sampleListener (some ["é"]) [] ResponseConfig.default).is_method_allowed "É" = true ∧
    (sampleListener (some ["GET"]) [] ResponseConfig.default).is_method_allowed "GET" = false :=
  ⟨(c8_method_list_matching.1 (sampleListener (some ["get"]) [] ResponseConfig.default)
      ["get"] "GeT" rfl (by decide)).mpr (by decide),
   c8_method_list_matching.2.1 "GeT" (by decide),
   (c8_method_list_matching.1 (sampleListener (some ["é"]) [] ResponseConfig.default)
      ["é"] "É" rfl (by decide)).mpr (by decide),
   c8_method_list_matching.2.2 (sampleListener (some ["GET"]) [] ResponseConfig.default)
     "GET" rfl⟩

/-- C3: for a `ConditionalRouting` listener, `validate` rejects (with an
`InvalidConfig` error) any configuration in which some target carries no
condition, rejects any configuration in which more than one target's
condition is `Default`, and accepts when every target has a condition and at
most one is `Default` (the remaining checks — target-id uniqueness, which
can never fire, and the spec-modelled per-target and response validations —
pass on every input). -/
theorem c3_conditional_routing_checks (cfg : ListenerConfig)
    (hstrat : cfg.response.strategy = .ConditionalRouting) :
    ((∃ t ∈ cfg.targets, t.condition = none) →
      ∃ cause, cfg.validate = .error (.InvalidConfig cause)) ∧
    ((cfg.targets.filter
        (fun t => decide (t.condition = some TargetConditionConfig.Default))).length > 1 →
      ∃ cause, cfg.validate = .error (.InvalidConfig cause)) ∧
    ((∀ t ∈ cfg.targets, t.condition ≠ none) →
     (cfg.targets.filter
        (fun t => decide (t.condition = some TargetConditionConfig.Default))).length ≤ 1 →
      cfg.validate = .ok ()) := by
  rw [listenerValidate_eq_strategyChecks]
  simp only [ListenerConfig.strategyChecks, hstrat]
  rw [filter_conditionIsDefault]
  refine ⟨?_, ?_, ?_⟩
  · rintro ⟨t, htmem, htnone⟩
    have hany : cfg.targets.any (fun t => t.condition.isNone) = true := by
      simp only [List.any_eq_true, Option.isNone_iff_eq_none]
      exact ⟨t, htmem, htnone⟩
    rw [if_pos hany]
    exact ⟨_, rfl⟩
  · intro hcount
    by_cases hany : cfg.targets.any (fun t => t.condition.isNone) = true
    · rw [if_pos hany]
      exact ⟨_, rfl⟩
    · rw [if_neg hany, if_pos hcount]
      exact ⟨_, rfl⟩
  · intro hall hle
    have hany : ¬(cfg.targets.any (fun t => t.condition.isNone) = true) := by
      simp only [List.any_eq_true, Option.isNone_iff_eq_none]
      rintro ⟨t, htmem, htnone⟩
      exact hall t htmem htnone
    rw [if_neg hany, if_neg (by omega)]

/-- Witness for C3: a target without a condition is rejected, two `Default`
targets are rejected, and a well-formed conditional-routing listener
validates. -/
theorem c3_conditional_routing_checks_witness :
    (∃ cause, noConditionListener.validate = .error (.InvalidConfig cause)) ∧
    (∃ cause, twoDefaultListener.validate = .error (.InvalidConfig cause)) ∧
    goodConditionalListener.validate = .ok () :=
  ⟨(c3_conditional_routing_checks noConditionListener rfl).1
      ⟨sampleTarget "t1" none, by decide, rfl⟩,
   (c3_conditional_routing_checks twoDefaultListener rfl).2.1 (by decide),
   (c3_conditional_routing_checks goodConditionalListener rfl).2.2 (by decide) (by decide)⟩

/-- C4: for a listener whose strategy is `AlwaysTargetId`,
`FailedThenTargetId` or `OkThenTargetId`, `validate` rejects (with an
`InvalidConfig` error) a missing `target_selector` as well as a selector
naming no configured target id, and accepts when the selector names one of
the listener's target ids (the remaining checks pass on every input, as in
C3). -/
theorem c4_target_id_selector_checks (cfg : ListenerConfig)
    (hstrat : cfg.response.strategy = .AlwaysTargetId ∨
              cfg.response.strategy = .FailedThenTargetId ∨
              cfg.response.strategy = .OkThenTargetId) :
    (cfg.response.target_selector = none →
      ∃ cause, cfg.validate = .error (.InvalidConfig cause)) ∧
    (∀ tid, cfg.response.target_selector = some tid →
      tid ∉ cfg.targets.map TargetConfig.id →
      ∃ cause, cfg.validate = .error (.InvalidConfig cause)) ∧
    (∀ tid, cfg.response.target_selector = some tid →
      tid ∈ cfg.targets.map TargetConfig.id →
      cfg.validate = .ok ()) := by
  rw [listenerValidate_eq_strategyChecks]
  rcases hstrat with h | h | h <;>
  · simp only [ListenerConfig.strategyChecks, h]
    refine ⟨?_, ?_, ?_⟩
    · intro hsel
      rw [hsel]
      exact ⟨_, rfl⟩
    · intro tid hsel hnotmem
      rw [hsel]
      have hc : ((cfg.targets.map TargetConfig.id).contains tid) = false := by
        simp only [List.contains, List.elem_eq_mem, decide_eq_false_iff_not]
        exact hnotmem
      simp only [hc]
      exact ⟨_, rfl⟩
    · intro tid hsel hmem
      rw [hsel]
      have hc : ((cfg.targets.map TargetConfig.id).contains tid) = true := by
        simp only [List.contains, List.elem_eq_mem, decide_eq_true_eq]
        exact hmem
      simp only [hc]
      rfl

/-- Witness for C4: a selector naming a configured target passes, a missing
selector is rejected. -/
theorem c4_target_id_selector_checks_witness :
    goodTargetIdListener.validate = .ok () ∧
    (∃ cause, (sampleListener none [sampleTarget "t1" none]
        (sampleResponse .OkThenTargetId none)).validate = .error (.InvalidConfig cause)) :=
  ⟨(c4_target_id_selector_checks goodTargetIdListener (Or.inl rfl)).2.2 "t1" rfl (by decide),
   (c4_target_id_selector_checks
      (sampleListener none [sampleTarget "t1" none] (sampleResponse .OkThenTargetId none))
      (Or.inr (Or.inr rfl))).1 rfl⟩

/-- Evaluation of the status parser on a well-formed input: three decimal
digits, then an optional whitespace-separated message with no line feed in
it. -/
theorem responseStatusFromChars_ok (d1 d2 d3 : Char) (rest : List Char)
    (h1 : d1.isDigit) (h2 : d2.isDigit) (h3 : d3.isDigit)
    (hnl : (rest.dropWhile isUnicodeWhitespace).contains '\n' = false) :
    responseStatusFromChars (d1 :: d2 :: d3 :: rest) =
      .ok { code := 100 * digitVal d1 + 10 * digitVal d2 + digitVal d3,
            msg := if rest.dropWhile isUnicodeWhitespace = [] then none
                   else some (String.mk (trimWhitespace rest)) } := by
  have hmem : '\n' ∉ rest.dropWhile isUnicodeWhitespace := by
    simpa [List.contains, List.elem_eq_mem] using hnl
  by_cases hemp : rest.dropWhile isUnicodeWhitespace = []
  · simp [responseStatusFromChars, h1, h2, h3, hnl, hemp, List.isEmpty_iff]
  · simp [responseStatusFromChars, h1, h2, h3, hnl, hemp, List.isEmpty_iff,
      trimWhitespace_dropWhile, hmem]

/-- C9 (counterexample to the claim as stated): the input `"200 a\nb"`
begins with three ASCII digits, yet `ResponseStatus::from_str` rejects it —
the `.` in the anchored pattern `^(?P<code>\d{3})\s*(?P<msg>.*)$` does not
match a line feed, so no input whose message part contains `'\n'` can
match. -/
theorem c9_newline_input_rejected :
    ("200 a\nb".data.take 3 = ['2', '0', '0'] ∧
      ∀ c ∈ "200 a\nb".data.take 3, c.isDigit) ∧
    ResponseStatus.fromStr "200 a\nb" =
      .error (.ParseConfigFile "invalid status string") := by
  refine ⟨⟨rfl, by decide⟩, by decide⟩

/-- C9 (amended): `ResponseStatus::from_str` succeeds exactly when the input
begins with three ASCII digits *and* the remainder, after its maximal run of
leading whitespace, contains no line feed; on success the three digits give
the numeric code and the trimmed remainder gives the optional message (no
message when the remainder is all whitespace).  `"504 Gateway Timeout"`
parses to code 504 with message `"Gateway Timeout"`, and `"2000"` parses to
code 200 with message `"0"`. -/
theorem c9_from_str_characterization :
    (∀ v : String,
      ((∃ r, ResponseStatus.fromStr v = .ok r) ↔
        ∃ d1 d2 d3 rest, v.data = d1 :: d2 :: d3 :: rest ∧
          (d1.isDigit ∧ d2.isDigit ∧ d3.isDigit) ∧
          (rest.dropWhile isUnicodeWhitespace).contains '\n' = false)) ∧
    (∀ (d1 d2 d3 : Char) (rest : List Char),
      d1.isDigit → d2.isDigit → d3.isDigit →
      (rest.dropWhile isUnicodeWhitespace).contains '\n' = false →
      ResponseStatus.fromStr (String.mk (d1 :: d2 :: d3 :: rest)) =
        .ok { code := 100 * digitVal d1 + 10 * digitVal d2 + digitVal d3,
              msg := if rest.dropWhile isUnicodeWhitespace = [] then none
                     else some (String.mk (trimWhitespace rest)) }) ∧
    ResponseStatus.fromStr "504 Gateway Timeout" =
      .ok { code := 504, msg := some "Gateway Timeout" } ∧
    ResponseStatus.fromStr "2000" = .ok { code := 200, msg := some "0" } := by
  refine ⟨?_, ?_, by decide, by decide⟩
  · intro v
    constructor
    · rintro ⟨r, hr⟩
      rw [ResponseStatus.fromStr] at hr
      rcases hd : v.data with _ | ⟨d1, _ | ⟨d2, _ | ⟨d3, rest⟩⟩⟩ <;> rw [hd] at hr
      · simp [responseStatusFromChars] at hr
      · simp [responseStatusFromChars] at hr
      · simp [responseStatusFromChars] at hr
      · refine ⟨d1, d2, d3, rest, rfl, ?_⟩
        simp only [responseStatusFromChars] at hr
        by_cases hdig : (d1.isDigit && d2.isDigit && d3.isDigit) = true
        · rw [if_pos hdig] at hr
          by_cases hnl : (rest.dropWhile isUnicodeWhitespace).contains '\n' = true
          · rw [if_pos hnl] at hr
            exact absurd hr (by simp)
          · have hdig2 := hdig
            simp only [Bool.and_eq_true] at hdig2
            have hnl2 : (rest.dropWhile isUnicodeWhitespace).contains '\n' = false := by
              revert hnl
              cases (rest.dropWhile isUnicodeWhitespace).contains '\n' <;> simp
            exact ⟨⟨hdig2.1.1, hdig2.1.2, hdig2.2⟩, hnl2⟩
        · rw [if_neg hdig] at hr
          exact absurd hr (by simp)
    · rintro ⟨d1, d2, d3, rest, hd, ⟨h1, h2, h3⟩, hnl⟩
      refine ⟨{ code := 100 * digitVal d1 + 10 * digitVal d2 + digitVal d3,
                msg := if rest.dropWhile isUnicodeWhitespace = [] then none
                       else some (String.mk (trimWhitespace rest)) }, ?_⟩
      rw [ResponseStatus.fromStr, hd]
      exact responseStatusFromChars_ok d1 d2 d3 rest h1 h2 h3 hnl
  · intro d1 d2 d3 rest h1 h2 h3 hnl
    rw [ResponseStatus.fromStr]
    exact responseStatusFromChars_ok d1 d2 d3 rest h1 h2 h3 hnl

/-- Witness for C9 at a concrete input: `"200 ok"` parses to code 200,
message `"ok"`. -/
theorem c9_from_str_characterization_witness :
    ResponseStatus.fromStr (String.mk ['2', '0', '0', ' ', 'o', 'k']) =
      .ok { code := 200, msg := some "ok" } := by
  have h := c9_from_str_characterization.2.1 '2' '0' '0' [' ', 'o', 'k']
    (by decide) (by decide) (by decide) (by decide)
  rw [h]
  decide

/-- C10: once `APP_CONFIG` holds a configuration, every later
`AppConfig::new` returns that stored configuration, whatever the filename
and whatever configuration the file parses to (the fresh value is
discarded by `get_or_init`) — yet each call still runs `from_file` first,
so a failing load still surfaces that file's error. -/
theorem c10_new_memoizes (load : String → Except HttpDragonflyError AppConfig)
    (f1 f2 : String) (c0 : AppConfig)
    (h1 : (AppConfig.new load f1 none).1 = .ok c0) :
    (AppConfig.new load f1 none).2 = some c0 ∧
    (∀ c2, load f2 = .ok c2 → AppConfig.new load f2 (some c0) = (.ok c0, some c0)) ∧
    (∀ e, load f2 = .error e → AppConfig.new load f2 (some c0) = (.error e, some c0)) := by
  refine ⟨?_, ?_, ?_⟩
  · unfold AppConfig.new at h1 ⊢
    cases hl : load f1 with
    | error e => rw [hl] at h1; simp at h1
    | ok cfg =>
      rw [hl] at h1
      simp at h1 ⊢
      exact h1
  · intro c2 hl2
    unfold AppConfig.new
    rw [hl2]
  · intro e hl2
    unfold AppConfig.new
    rw [hl2]

/-- Witness for C10: after a first successful load stores a configuration,
a later call with a different filename — whose file parses to a *different*
configuration — still returns the stored one. -/
theorem c10_new_memoizes_witness :
    (AppConfig.new sampleLoad "first.yaml" none).2 = some { listeners := [dupIdListener] } ∧
    (∀ c2, sampleLoad "other.yaml" = .ok c2 →
      AppConfig.new sampleLoad "other.yaml" (some { listeners := [dupIdListener] }) =
        (.ok { listeners := [dupIdListener] }, some { listeners := [dupIdListener] })) ∧
    (∀ e, sampleLoad "other.yaml" = .error e →
      AppConfig.new sampleLoad "other.yaml" (some { listeners := [dupIdListener] }) =
        (.error e, some { listeners := [dupIdListener] })) :=
  c10_new_memoizes sampleLoad "first.yaml" "other.yaml" { listeners := [dupIdListener] }
    (by decide)

end HttpSplitter
